import Mathlib

/-!
# Verification of screencapturekit-rs (capture bridge layer)

A shallow embedding, in Lean 4, of the Rust sources of the
`screencapturekit-rs` repository: the single-shot screenshot capture path
(`src/screenshot_manager.rs`), the CoreGraphics display queries
(`src/cg_display.rs`) and the Swift-bridge build step (`build.rs`).

Native (Swift/C) calls are external to the repository, so every embedded
function takes the outcome of the native calls it makes as explicit
arguments (an oracle): a raw pointer is a `Ptr` (`0` is null), a C string
pointer is an `Option String` (`none` is null), a native buffer is an
`Option (Nat → Nat)` together with a length.  Side effects that the claims
talk about (writes to the completion slot, native release calls, whether a
native function was invoked at all) are reified as explicit traces or
record fields of the embedded functions' results.

Two pieces of the crate are referenced by the embedded files but are not
part of the sources (`crate::error`, `crate::utils::sync_completion`);
they are modelled from the specification and marked as such.
-/

namespace SCK

/-- A raw native pointer, address-sized; `0` is the null pointer
(mirrors `*const c_void` and the `is_null` tests in the Rust source). -/
abbrev Ptr := Nat

/-- The null pointer. -/
def nullPtr : Ptr := 0

/-- `CGImage` wrapper from `src/screenshot_manager.rs`: holds one raw
native handle (`ptr: *const c_void`). -/
structure CGImage where
  ptr : Ptr
  deriving DecidableEq, Repr

/-- `CGImage::from_ptr` (screenshot_manager.rs:188): wraps the handle
without any null check or reference-count change. -/
def CGImage.from_ptr (p : Ptr) : CGImage := ⟨p⟩

/-- `CMSampleBuffer` wrapper (from `crate::cm`): holds one raw native
handle; only its construction from a pointer matters for these claims. -/
structure CMSampleBuffer where
  ptr : Ptr
  deriving DecidableEq, Repr

/-- `CMSampleBuffer::from_ptr`: wraps the handle as-is. -/
def CMSampleBuffer.from_ptr (p : Ptr) : CMSampleBuffer := ⟨p⟩

/-- One write to a completion slot: either `complete_ok` carrying a value
or `complete_err` carrying an error message. -/
inductive SlotWrite (T : Type) where
  | ok (v : T)
  | err (msg : String)
  deriving DecidableEq, Repr

/-- `error_from_cstr` (from `crate::utils::sync_completion`): reads the
native C string the error pointer points to.  With C strings embedded as
`String`, reading is the identity. -/
def error_from_cstr (s : String) : String := s

/-- `image_callback` (screenshot_manager.rs:80-93), embedded as the list
of completion-slot writes one invocation performs, in order.  `error_ptr`
is `none` when the native error pointer is null, `some msg` when it points
to the C string `msg`; `image_ptr` is the native result handle. -/
def image_callback (image_ptr : Ptr) (error_ptr : Option String) :
    List (SlotWrite CGImage) :=
  match error_ptr with
  | some e => [SlotWrite.err (error_from_cstr e)]
  | none =>
    if image_ptr ≠ nullPtr then
      [SlotWrite.ok (CGImage.from_ptr image_ptr)]
    else
      [SlotWrite.err "Unknown error"]

/-- `buffer_callback` (screenshot_manager.rs:95-114), embedded as the list
of completion-slot writes one invocation performs, in order. -/
def buffer_callback (buffer_ptr : Ptr) (error_ptr : Option String) :
    List (SlotWrite CMSampleBuffer) :=
  match error_ptr with
  | some e => [SlotWrite.err (error_from_cstr e)]
  | none =>
    if buffer_ptr ≠ nullPtr then
      [SlotWrite.ok (CMSampleBuffer.from_ptr buffer_ptr)]
    else
      [SlotWrite.err "Unknown error"]

/-- Modelled from the spec: the error type of `crate::error`, whose file is
not among the sources (only its callers are).  §7 gives the error taxonomy
(`ResourceUnavailable`, `PermissionDenied`, `InvalidConfiguration`, the
lifecycle failures, `LockFailed`, `InternalProtocolViolation`); the sources
additionally use the constructors `SCError::internal_error(msg)` and
`SCError::ScreenshotError(msg)`, which carry a message string. -/
inductive SCError where
  | InternalError (msg : String)
  | ScreenshotError (msg : String)
  | ResourceUnavailable
  | PermissionDenied
  | InvalidConfiguration
  | CaptureStartFailed (msg : String)
  | ReconfigurationFailed (msg : String)
  | CaptureStopFailed (msg : String)
  | LockFailed
  deriving DecidableEq, Repr

/-- `SCError::internal_error` as used throughout the sources: builds the
internal-error variant from a message. -/
def SCError.internal_error (msg : String) : SCError := SCError.InternalError msg

/-- Modelled from the spec: `SyncCompletion::wait` of
`crate::utils::sync_completion`, whose file is not among the sources.
Per §4.2/§3 the completion slot is single-assignment — the first write
resolves it and a later write is a no-op — and per §4.2/§6 `wait` parks
the calling thread until the slot is resolved and then returns the
resolution as `Result<T, String>`.  The invocation is embedded by the list
of slot writes the native callback performed: an empty list is an
unresolved slot, on which `wait` blocks forever (`none`); otherwise `wait`
returns the first write. -/
def SyncCompletion.wait {T : Type} (writes : List (SlotWrite T)) :
    Option (Except String T) :=
  match writes with
  | [] => none
  | SlotWrite.ok v :: _ => some (Except.ok v)
  | SlotWrite.err e :: _ => some (Except.error e)

/-- `SCScreenshotManager::capture_image`
(screenshot_manager.rs:407-423): registers a completion, passes
`image_callback` to the native capture call, waits, and maps the error
side through `SCError::ScreenshotError`.  The native layer's behaviour is
the pair of arguments it eventually invokes `image_callback` with; the
result is `none` when the call would block forever. -/
def capture_image (image_ptr : Ptr) (error_ptr : Option String) :
    Option (Except SCError CGImage) :=
  (SyncCompletion.wait (image_callback image_ptr error_ptr)).map
    (Except.mapError SCError.ScreenshotError)

/-- `capture_image_with_stream` (screenshot_manager.rs:119-135): same
shape as `capture_image` but maps the error side through
`SCError::internal_error`. -/
def capture_image_with_stream (image_ptr : Ptr) (error_ptr : Option String) :
    Option (Except SCError CGImage) :=
  (SyncCompletion.wait (image_callback image_ptr error_ptr)).map
    (Except.mapError SCError.internal_error)

/-- An `f32` value, embedded by its 32-bit pattern: the sources never do
arithmetic on the quality floats beyond one `clamp`, so the pattern is
passed through untouched. -/
structure F32 where
  bits : Nat
  deriving DecidableEq, Repr

/-- The value of `ImageFormat::quality` (screenshot_manager.rs:59-64):
either the `f32` literal `1.0`, or `q.clamp(0.0, 1.0)` of the stored
quality `q`, kept symbolic since the sources never inspect it further. -/
inductive QualityVal where
  | lit_one
  | clamp01 (q : F32)
  deriving DecidableEq, Repr

/-- `ImageFormat` (screenshot_manager.rs:32-45). -/
inductive ImageFormat where
  | Png
  | Jpeg (q : F32)
  | Tiff
  | Gif
  | Bmp
  | Heic (q : F32)
  deriving DecidableEq, Repr

/-- `ImageFormat::to_format_id` (screenshot_manager.rs:48-57). -/
def ImageFormat.to_format_id : ImageFormat → Int
  | .Png => 0
  | .Jpeg _ => 1
  | .Tiff => 2
  | .Gif => 3
  | .Bmp => 4
  | .Heic _ => 5

/-- `ImageFormat::quality` (screenshot_manager.rs:59-64): `Jpeg`/`Heic`
clamp their stored quality into `[0.0, 1.0]`, everything else is `1.0`. -/
def ImageFormat.quality : ImageFormat → QualityVal
  | .Jpeg q => .clamp01 q
  | .Heic q => .clamp01 q
  | _ => .lit_one

/-- `ImageFormat::extension` (screenshot_manager.rs:68-77). -/
def ImageFormat.extension : ImageFormat → String
  | .Png => "png"
  | .Jpeg _ => "jpg"
  | .Tiff => "tiff"
  | .Gif => "gif"
  | .Bmp => "bmp"
  | .Heic _ => "heic"

/-- Rust `str::to_uppercase` as used on the ASCII format extensions:
uppercases each ASCII letter. -/
def asciiUpper (s : String) : String :=
  ⟨s.data.map (fun c =>
    if 97 ≤ c.toNat ∧ c.toNat ≤ 122 then Char.ofNat (c.toNat - 32) else c)⟩

/-- Whether a Rust string contains a null byte, the condition under which
`CString::new` fails in `CGImage::save` and panics in
`SCScreenshotConfiguration::with_file_path`. -/
def hasNullByte (s : String) : Bool :=
  s.toList.contains (Char.ofNat 0)

/-- The observable outcome of one `CGImage::save` call: which native
`cgimage_save_to_file` invocation was made, if any (image handle, path,
format id, quality), and the value returned to the caller. -/
structure SaveRun where
  native_call : Option (Ptr × String × Int × QualityVal)
  result : Except SCError Unit
  deriving Repr

/-- `CGImage::save` (screenshot_manager.rs:324-345): converting the path
with an interior null byte fails before any native call; otherwise the
native save is invoked with the image handle, the path, the format id and
the quality, and its boolean outcome (`native_success`, the oracle) is
mapped to `Ok` or to an error naming the format's extension. -/
def CGImage.save (img : CGImage) (path : String) (format : ImageFormat)
    (native_success : Bool) : SaveRun :=
  if hasNullByte path then
    { native_call := none
      result := Except.error (SCError.internal_error "Path contains null bytes") }
  else if native_success then
    { native_call := some (img.ptr, path, format.to_format_id, format.quality)
      result := Except.ok () }
  else
    { native_call := some (img.ptr, path, format.to_format_id, format.quality)
      result := Except.error (SCError.internal_error
        ("Failed to save image as " ++ asciiUpper format.extension)) }

/-- `CGImage::save_png` (screenshot_manager.rs:287-289): delegates to
`save` with `ImageFormat::Png`. -/
def CGImage.save_png (img : CGImage) (path : String) (native_success : Bool) :
    SaveRun :=
  img.save path ImageFormat.Png native_success

/-- `CGImage::rgba_data` (screenshot_manager.rs:234-261).  The oracle is
the native `cgimage_get_data` outcome: its success flag, the data pointer
it wrote (`none` is null, `some f` is memory whose byte at offset `i` is
`f i`) and the length it wrote.  On `!success || data_ptr.is_null()` an
error is returned; otherwise the `data_length` bytes at the pointer are
copied out. -/
def CGImage.rgba_data (img : CGImage) (native_success : Bool)
    (data : Option (Nat → Nat)) (data_length : Nat) :
    Except SCError (List Nat) :=
  match native_success, data with
  | true, some f => Except.ok ((List.range data_length).map f)
  | _, _ => Except.error (SCError.internal_error
      "Failed to extract pixel data from CGImage")

/-- The result of a call that may abort the process (a Rust `assert!` or
`expect` failure) instead of returning. -/
inductive Outcome (T : Type) where
  | ok (v : T)
  | fatal (msg : String)
  deriving DecidableEq, Repr

/-- `SCScreenshotConfiguration` wrapper (screenshot_manager.rs:634-636). -/
structure SCScreenshotConfiguration where
  ptr : Ptr
  deriving DecidableEq, Repr

/-- `SCScreenshotConfiguration::new` (screenshot_manager.rs:645-649):
calls the native constructor (whose returned handle is the oracle
`native_ptr`) and `assert!`s it is non-null — a null handle from the
native layer aborts the process with the assertion message rather than
returning an error value. -/
def SCScreenshotConfiguration.new (native_ptr : Ptr) :
    Outcome SCScreenshotConfiguration :=
  if native_ptr ≠ nullPtr then Outcome.ok ⟨native_ptr⟩
  else Outcome.fatal "Failed to create SCScreenshotConfiguration"

/-- `SCScreenshotConfiguration::with_file_path`
(screenshot_manager.rs:769-775): `CString::new(path).expect(...)` aborts
the process when the path contains a null byte; otherwise the native
setter is called and the configuration is returned. -/
def SCScreenshotConfiguration.with_file_path
    (cfg : SCScreenshotConfiguration) (path : String) :
    Outcome SCScreenshotConfiguration :=
  if hasNullByte path then
    Outcome.fatal "path should not contain null bytes"
  else
    Outcome.ok cfg

/-- An `f64` value, embedded by its 64-bit pattern: the sources only pass
these through between native out-parameters and Rust structs. -/
structure F64 where
  bits : Nat
  deriving DecidableEq, Repr

/-- `CGRect` (from `crate::cg`): four `f64` fields, passed through to
native calls untouched. -/
structure CGRect where
  x : F64
  y : F64
  width : F64
  height : F64
  deriving DecidableEq, Repr

/-- `CGDisplay` (cg_display.rs:45-47): a raw `CGDirectDisplayID`. -/
structure CGDisplay where
  id : Nat
  deriving DecidableEq, Repr

/-- `CGDisplay::create_image` (cg_display.rs:117-125): the oracle
`native_ptr` is the handle the native `cg_display_create_image` returns;
a null handle yields `None` without constructing a wrapper. -/
def CGDisplay.create_image (d : CGDisplay) (native_ptr : Ptr) :
    Option CGImage :=
  if native_ptr = nullPtr then none
  else some (CGImage.from_ptr native_ptr)

/-- `CGDisplay::create_image_in_rect` (cg_display.rs:128-144): same null
check over the handle returned by `cg_display_create_image_rect`. -/
def CGDisplay.create_image_in_rect (d : CGDisplay) (rect : CGRect)
    (native_ptr : Ptr) : Option CGImage :=
  if native_ptr = nullPtr then none
  else some (CGImage.from_ptr native_ptr)

/-- `SCScreenshotOutput` wrapper (screenshot_manager.rs:897-899). -/
structure SCScreenshotOutput where
  ptr : Ptr
  deriving DecidableEq, Repr

/-- `SCScreenshotOutput::sdr_image` (screenshot_manager.rs:909-916): the
oracle is the handle `sc_screenshot_output_get_sdr_image` returns; null
yields `None` without constructing a wrapper. -/
def SCScreenshotOutput.sdr_image (o : SCScreenshotOutput)
    (native_ptr : Ptr) : Option CGImage :=
  if native_ptr = nullPtr then none
  else some (CGImage.from_ptr native_ptr)

/-- `SCScreenshotOutput::hdr_image` (screenshot_manager.rs:920-927): same
shape over `sc_screenshot_output_get_hdr_image`. -/
def SCScreenshotOutput.hdr_image (o : SCScreenshotOutput)
    (native_ptr : Ptr) : Option CGImage :=
  if native_ptr = nullPtr then none
  else some (CGImage.from_ptr native_ptr)

/-- One native release call, naming the released handle. -/
inductive ReleaseCall where
  | cgimage_release (p : Ptr)
  deriving DecidableEq, Repr

/-- `impl Drop for CGImage` (screenshot_manager.rs:348-356), embedded as
the list of native release calls one drop performs: exactly one release
of the held handle when it is non-null, none otherwise. -/
def CGImage.drop (img : CGImage) : List ReleaseCall :=
  if img.ptr ≠ nullPtr then [ReleaseCall.cgimage_release img.ptr] else []

/-- One event in the life of `CGImage` wrappers: constructing a wrapper
around a handle (`CGImage::from_ptr`), or dropping the `i`-th currently
live wrapper. -/
inductive WrapperEvent where
  | construct (p : Ptr)
  | dropAt (i : Nat)
  deriving DecidableEq, Repr

/-- The state of a run over wrapper events: the currently live wrappers,
in construction order, and the native release calls issued so far, in
order. -/
structure WrapperState where
  live : List CGImage
  releases : List ReleaseCall
  deriving DecidableEq, Repr

/-- The state before any wrapper exists. -/
def initialWrapperState : WrapperState := ⟨[], []⟩

/-- One step of the wrapper lifecycle: a construction adds a live
wrapper; a drop of a live wrapper removes it from the live set and issues
the release calls of `CGImage.drop` at that same step (Rust ownership
guarantees each wrapper is dropped exactly once and only while live; an
out-of-range drop index is a no-op). -/
def WrapperState.step (s : WrapperState) (ev : WrapperEvent) : WrapperState :=
  match ev with
  | WrapperEvent.construct p => { s with live := s.live ++ [CGImage.from_ptr p] }
  | WrapperEvent.dropAt i =>
    match s.live[i]? with
    | none => s
    | some img =>
      { live := s.live.eraseIdx i
        releases := s.releases ++ CGImage.drop img }

/-- Running a whole event sequence from the empty state. -/
def WrapperState.run (evs : List WrapperEvent) : WrapperState :=
  evs.foldl WrapperState.step initialWrapperState

/-- The number of wrappers in a list that hold a non-null handle. -/
def countNonNull (l : List CGImage) : Nat :=
  (l.filter (fun img => img.ptr != nullPtr)).length

/-- The number of constructions of a wrapper around a non-null handle in
an event sequence. -/
def nonnullConstructCount (evs : List WrapperEvent) : Nat :=
  (evs.filter (fun ev => match ev with
    | WrapperEvent.construct p => p != nullPtr
    | WrapperEvent.dropAt _ => false)).length

/-- `DisplayMode` (cg_display.rs:6-14). -/
structure DisplayMode where
  logical_width : Int
  logical_height : Int
  pixel_width : Int
  pixel_height : Int
  refresh_rate : F64
  deriving DecidableEq, Repr

/-- `CGDisplay::display_mode` (cg_display.rs:85-114): calls the native
`cg_display_copy_current_mode` with five caller-provided out-parameters;
the oracle is the boolean the native query returns together with the
final contents of the out-parameters.  Returns `Some` carrying exactly
those five values when the query returned `true`, `None` otherwise. -/
def CGDisplay.display_mode (d : CGDisplay) (ok : Bool)
    (lw lh pw ph : Int) (rr : F64) : Option DisplayMode :=
  if ok then some ⟨lw, lh, pw, ph, rr⟩ else none

/-- `std::process::Output` of the Swift build command in `build.rs`:
exit-status success flag, optional exit code, and the captured
stdout/stderr text. -/
structure ProcOutput where
  success : Bool
  exitCode : Option Int
  stdout : String
  stderr : String
  deriving DecidableEq, Repr

/-- Rust `Debug` formatting of `Option<i32>` as used in the build
script's failure message. -/
def optIntDebug : Option Int → String
  | none => "None"
  | some c => "Some(" ++ toString c ++ ")"

/-- The Swift-build outcome check of `build.rs` (build.rs:96-109): the
build aborts with diagnostics iff the exit status is unsuccessful;
stdout/stderr content never decides the outcome ("Swift build outputs
warnings to stderr even on success, check exit code only"). -/
def swift_build_check (o : ProcOutput) : Outcome Unit :=
  if o.success then Outcome.ok ()
  else Outcome.fatal
    ("Swift build failed with exit code: " ++ optIntDebug o.exitCode)

/-- The observable outcome of one `CGDisplay::active_displays` call:
whether the raw native buffer was dereferenced, whether
`cg_active_display_list_free` was invoked, and the value returned to the
caller. -/
structure ActiveDisplaysRun where
  derefed : Bool
  freed : Bool
  result : Except SCError (List Nat)
  deriving Repr

/-- `CGDisplay::active_displays` (cg_display.rs:63-82).  The oracle is
the native list query's outcome: its boolean, the buffer pointer it
wrote (`none` is null, `some f` is memory whose `i`-th id is `f i`) and
the count it wrote.  On failure an error is returned before any buffer
use; on success the ids are copied out of the buffer only when the count
is positive and the buffer is non-null (the empty vector otherwise), and
the native free function is called on every success path. -/
def active_displays (ok : Bool) (buf : Option (Nat → Nat)) (count : Nat) :
    ActiveDisplaysRun :=
  if ¬ok then
    { derefed := false
      freed := false
      result := Except.error
        (SCError.internal_error "Failed to get active display list") }
  else
    match buf with
    | some f =>
      if 0 < count then
        { derefed := true
          freed := true
          result := Except.ok ((List.range count).map f) }
      else
        { derefed := false, freed := true, result := Except.ok [] }
    | none =>
      { derefed := false, freed := true, result := Except.ok [] }

end SCK

namespace SCK

/-- C1: every invocation of `image_callback` or `buffer_callback` writes
exactly one resolution to the completion slot, chosen by the three-way
case split: a non-null error pointer resolves `Err` with the native
message; otherwise a non-null result pointer resolves `Ok` with a wrapper
around that handle; otherwise both null resolves `Err "Unknown error"`.
No invocation writes zero or two resolutions. -/
theorem single_shot_callbacks_resolve_exactly_once
    (p : Ptr) (e : Option String) :
    (image_callback p e).length = 1 ∧
    (buffer_callback p e).length = 1 ∧
    image_callback p e =
      (match e with
       | some msg => [SlotWrite.err msg]
       | none =>
         if p = nullPtr then [SlotWrite.err "Unknown error"]
         else [SlotWrite.ok (CGImage.from_ptr p)]) ∧
    buffer_callback p e =
      (match e with
       | some msg => [SlotWrite.err msg]
       | none =>
         if p = nullPtr then [SlotWrite.err "Unknown error"]
         else [SlotWrite.ok (CMSampleBuffer.from_ptr p)]) := by
  cases e with
  | some msg =>
    simp [image_callback, buffer_callback, error_from_cstr]
  | none =>
    by_cases h : p = nullPtr <;>
      simp [image_callback, buffer_callback, h]

/-- C2: the blocking captures `SCScreenshotManager::capture_image` and
`capture_image_with_stream` return exactly the callback's resolution —
`Ok(image)` when the callback resolved `Ok`, and `Err` wrapping the
callback's message (through `ScreenshotError` resp. `internal_error`)
when it resolved `Err` — and never return an unresolved or default value;
on an unresolved slot `wait` blocks instead of returning. -/
theorem capture_image_returns_the_resolution (p : Ptr) (e : Option String) :
    (capture_image p e).isSome ∧
    (capture_image_with_stream p e).isSome ∧
    (∀ img, image_callback p e = [SlotWrite.ok img] →
      capture_image p e = some (Except.ok img) ∧
      capture_image_with_stream p e = some (Except.ok img)) ∧
    (∀ m, image_callback p e = [SlotWrite.err m] →
      capture_image p e = some (Except.error (SCError.ScreenshotError m)) ∧
      capture_image_with_stream p e =
        some (Except.error (SCError.internal_error m))) ∧
    SyncCompletion.wait ([] : List (SlotWrite CGImage)) = none := by
  unfold capture_image capture_image_with_stream
  cases e with
  | some msg =>
    simp [image_callback, error_from_cstr, SyncCompletion.wait,
      Except.mapError]
  | none =>
    by_cases h : p = nullPtr <;>
      simp [image_callback, h, SyncCompletion.wait, Except.mapError]

/-- Witness for C2: at a concrete successful native outcome (result handle
`1`, no error), `capture_image` returns `Ok` of the wrapped handle. -/
theorem capture_image_returns_the_resolution_witness :
    capture_image 1 none = some (Except.ok (CGImage.from_ptr 1)) :=
  ((capture_image_returns_the_resolution 1 none).2.2.1 (CGImage.from_ptr 1)
    (by decide)).1

/-- C3 counterexample: at the concrete native outcome "the native
constructor returns a null handle", the public operation
`SCScreenshotConfiguration::new` aborts the process with an assertion
failure instead of reporting the native-layer failure to the caller as a
returned error value — refuting the claim that no public operation
panics on a native failure. -/
theorem config_constructor_panics_on_null_counterexample :
    SCScreenshotConfiguration.new nullPtr =
      Outcome.fatal "Failed to create SCScreenshotConfiguration" := by
  decide

/-- C3 (amended): `CGImage::save` reports a native save failure, and an
interior null byte in the path, to the caller as a returned error value
and never aborts; but `SCScreenshotConfiguration::new` aborts the process
when the native constructor returns a null handle (succeeding exactly on
non-null handles), and `with_file_path` aborts when the path contains an
interior null byte (succeeding otherwise) — both aborts are documented in
the sources' own `# Panics` sections. -/
theorem native_failures_as_errors_except_config_asserts
    (img : CGImage) (path : String) (fmt : ImageFormat) (b : Bool)
    (p : Ptr) (cfg : SCScreenshotConfiguration) :
    ((img.save path fmt b).result = Except.ok () ↔
      hasNullByte path = false ∧ b = true) ∧
    (∀ c, SCScreenshotConfiguration.new p = Outcome.ok c → p ≠ nullPtr) ∧
    (p = nullPtr → SCScreenshotConfiguration.new p =
      Outcome.fatal "Failed to create SCScreenshotConfiguration") ∧
    (hasNullByte path = true → cfg.with_file_path path =
      Outcome.fatal "path should not contain null bytes") ∧
    (hasNullByte path = false → cfg.with_file_path path = Outcome.ok cfg) := by
  refine ⟨?_, ?_, ?_, ?_, ?_⟩
  · unfold CGImage.save
    by_cases hn : hasNullByte path <;> cases b <;> simp [hn]
  · intro c hc
    by_contra hp
    simp [SCScreenshotConfiguration.new, hp] at hc
  · intro hp
    simp [SCScreenshotConfiguration.new, hp]
  · intro hn
    simp [SCScreenshotConfiguration.with_file_path, hn]
  · intro hn
    simp [SCScreenshotConfiguration.with_file_path, hn]

/-- Witness for amended C3: at the concrete handle `0` (null) the
constructor aborts, and at a concrete null-byte-free path
`with_file_path` succeeds. -/
theorem native_failures_as_errors_except_config_asserts_witness :
    SCScreenshotConfiguration.new 0 =
      Outcome.fatal "Failed to create SCScreenshotConfiguration" ∧
    SCScreenshotConfiguration.with_file_path ⟨1⟩ "shot" = Outcome.ok ⟨1⟩ :=
  ⟨(native_failures_as_errors_except_config_asserts
      (CGImage.from_ptr 1) "shot" ImageFormat.Png true 0 ⟨1⟩).2.2.1 rfl,
   (native_failures_as_errors_except_config_asserts
      (CGImage.from_ptr 1) "shot" ImageFormat.Png true 0 ⟨1⟩).2.2.2.2
      (by decide)⟩

/-- C6: `CGImage::save` returns an error without invoking the native save
when the path contains an interior null byte, and otherwise returns `Ok`
iff the native save reports success, an extension-naming error otherwise;
`CGImage::rgba_data` returns an error whenever the native extraction
reports failure or yields a null data pointer, and otherwise a byte
vector of exactly the reported length. -/
theorem save_and_rgba_data_surface_native_failures
    (img : CGImage) (path : String) (fmt : ImageFormat) (b : Bool)
    (f : Nat → Nat) (data : Option (Nat → Nat)) (len : Nat) :
    (hasNullByte path = true →
      (img.save path fmt b).native_call = none ∧
      (img.save path fmt b).result =
        Except.error (SCError.internal_error "Path contains null bytes")) ∧
    (hasNullByte path = false →
      (img.save path fmt b).native_call ≠ none ∧
      ((img.save path fmt b).result = Except.ok () ↔ b = true) ∧
      (b = false → (img.save path fmt b).result =
        Except.error (SCError.internal_error
          ("Failed to save image as " ++ asciiUpper fmt.extension)))) ∧
    (img.rgba_data false data len = Except.error
      (SCError.internal_error "Failed to extract pixel data from CGImage")) ∧
    (img.rgba_data b none len = Except.error
      (SCError.internal_error "Failed to extract pixel data from CGImage")) ∧
    (img.rgba_data true (some f) len = Except.ok ((List.range len).map f)) ∧
    (∀ v, img.rgba_data true (some f) len = Except.ok v →
      v.length = len) := by
  refine ⟨?_, ?_, ?_, ?_, ?_, ?_⟩
  · intro hn
    simp [CGImage.save, hn]
  · intro hn
    cases b <;> simp [CGImage.save, hn]
  · cases data <;> simp [CGImage.rgba_data]
  · cases b <;> simp [CGImage.rgba_data]
  · simp [CGImage.rgba_data]
  · intro v hv
    simp [CGImage.rgba_data] at hv
    simp [← hv]

/-- Witness for C6: a concrete failing save (clean path, native failure)
yields the extension-naming error, and a concrete successful extraction
of 3 bytes yields a 3-byte vector. -/
theorem save_and_rgba_data_surface_native_failures_witness :
    ((CGImage.from_ptr 1).save "shot" ImageFormat.Png false).result =
      Except.error (SCError.internal_error "Failed to save image as PNG") ∧
    (CGImage.from_ptr 1).rgba_data true (some (fun i => i)) 3 =
      Except.ok [0, 1, 2] := by
  have h := save_and_rgba_data_surface_native_failures
    (CGImage.from_ptr 1) "shot" ImageFormat.Png false (fun i => i)
    (some (fun i => i)) 3
  refine ⟨?_, ?_⟩
  · have hres := (h.2.1 (by decide)).2.2 rfl
    have hmsg : "Failed to save image as " ++
        asciiUpper ImageFormat.Png.extension = "Failed to save image as PNG" := by
      decide
    rw [hmsg] at hres
    exact hres
  · simpa using h.2.2.2.2.1

/-- C9: `CGImage::save_png(path)` returns exactly the same result and
records exactly the same native call as
`CGImage::save(path, ImageFormat::Png)`; PNG maps to format id 0,
quality the `f32` literal `1.0`, and extension `"png"`. -/
theorem save_png_refines_save (img : CGImage) (path : String) (b : Bool) :
    img.save_png path b = img.save path ImageFormat.Png b ∧
    ImageFormat.Png.to_format_id = 0 ∧
    ImageFormat.Png.quality = QualityVal.lit_one ∧
    ImageFormat.Png.extension = "png" :=
  ⟨rfl, rfl, rfl, rfl⟩

/-- C4 counterexample: at the concrete native outcome "both result and
error pointer null" the capture fails with
`SCError::ScreenshotError("Unknown error")`, not with a
`ResourceUnavailable` error as the claim states; and at a null handle
`CGDisplay::create_image` returns `None`, producing no error value at
all. -/
theorem null_handle_failure_not_resource_unavailable :
    capture_image nullPtr none =
      some (Except.error (SCError.ScreenshotError "Unknown error")) ∧
    capture_image nullPtr none ≠
      some (Except.error SCError.ResourceUnavailable) ∧
    CGDisplay.create_image ⟨1⟩ nullPtr = none := by
  refine ⟨rfl, ?_, rfl⟩
  intro h
  simp [capture_image, image_callback, SyncCompletion.wait,
    Except.mapError, nullPtr] at h

/-- C4 (amended): a null native handle at each listed entry point makes
the operation fail — `create_image`/`create_image_in_rect` and
`sdr_image`/`hdr_image` return `None`, the capture callbacks resolve
`Err("Unknown error")` — and no wrapper is ever constructed around a null
handle (every `Some`/`Ok` wrapper holds the non-null handle), so the
native release function is never invoked on a null handle (`Drop` issues
no call for a null pointer, and wrappers from these entry points are
non-null). -/
theorem null_handles_never_wrapped (d : CGDisplay) (r : CGRect)
    (o : SCScreenshotOutput) (p : Ptr) (e : Option String) (img : CGImage) :
    CGDisplay.create_image d nullPtr = none ∧
    CGDisplay.create_image_in_rect d r nullPtr = none ∧
    SCScreenshotOutput.sdr_image o nullPtr = none ∧
    SCScreenshotOutput.hdr_image o nullPtr = none ∧
    image_callback nullPtr none = [SlotWrite.err "Unknown error"] ∧
    (∀ i, CGDisplay.create_image d p = some i → p ≠ nullPtr ∧ i.ptr = p) ∧
    (∀ i, CGDisplay.create_image_in_rect d r p = some i →
      p ≠ nullPtr ∧ i.ptr = p) ∧
    (∀ i, SCScreenshotOutput.sdr_image o p = some i →
      p ≠ nullPtr ∧ i.ptr = p) ∧
    (∀ i, SCScreenshotOutput.hdr_image o p = some i →
      p ≠ nullPtr ∧ i.ptr = p) ∧
    (∀ i, SlotWrite.ok i ∈ image_callback p e → i.ptr ≠ nullPtr) ∧
    (img.ptr = nullPtr → CGImage.drop img = []) := by
  refine ⟨rfl, rfl, rfl, rfl, rfl, ?_, ?_, ?_, ?_, ?_, ?_⟩
  · intro i hi
    unfold CGDisplay.create_image at hi
    by_cases hp : p = nullPtr
    · simp [hp] at hi
    · refine ⟨hp, ?_⟩
      simp [hp] at hi
      subst hi
      rfl
  · intro i hi
    unfold CGDisplay.create_image_in_rect at hi
    by_cases hp : p = nullPtr
    · simp [hp] at hi
    · refine ⟨hp, ?_⟩
      simp [hp] at hi
      subst hi
      rfl
  · intro i hi
    unfold SCScreenshotOutput.sdr_image at hi
    by_cases hp : p = nullPtr
    · simp [hp] at hi
    · refine ⟨hp, ?_⟩
      simp [hp] at hi
      subst hi
      rfl
  · intro i hi
    unfold SCScreenshotOutput.hdr_image at hi
    by_cases hp : p = nullPtr
    · simp [hp] at hi
    · refine ⟨hp, ?_⟩
      simp [hp] at hi
      subst hi
      rfl
  · intro i hi
    cases e with
    | some msg => simp [image_callback, error_from_cstr] at hi
    | none =>
      by_cases hp : p = nullPtr
      · simp [image_callback, hp] at hi
      · simp [image_callback, hp] at hi
        subst hi
        simpa [CGImage.from_ptr] using hp
  · intro hz
    simp [CGImage.drop, hz]

/-- Witness for amended C4: a concrete non-null handle `5` wraps to the
wrapper holding `5`, and a concrete null-handled wrapper drops without
any release call. -/
theorem null_handles_never_wrapped_witness :
    ((5 : Ptr) ≠ nullPtr ∧ (CGImage.from_ptr 5).ptr = 5) ∧
    CGImage.drop (CGImage.from_ptr 0) = [] := by
  have h := null_handles_never_wrapped ⟨1⟩
    ⟨⟨0⟩, ⟨0⟩, ⟨0⟩, ⟨0⟩⟩ ⟨1⟩ 5 none (CGImage.from_ptr 0)
  exact ⟨h.2.2.2.2.2.1 (CGImage.from_ptr 5) rfl, h.2.2.2.2.2.2.2.2.2.2 rfl⟩

/-- The live-non-null count of an empty list. -/
theorem countNonNull_nil : countNonNull [] = 0 := rfl

/-- The live-non-null count of a cons. -/
theorem countNonNull_cons (a : CGImage) (t : List CGImage) :
    countNonNull (a :: t) =
      (if a.ptr = nullPtr then 0 else 1) + countNonNull t := by
  by_cases ha : a.ptr = nullPtr <;>
    simp [countNonNull, List.filter_cons, ha, Nat.add_comm]

/-- The live-non-null count of an append. -/
theorem countNonNull_append (l1 l2 : List CGImage) :
    countNonNull (l1 ++ l2) = countNonNull l1 + countNonNull l2 := by
  simp [countNonNull, List.filter_append]

/-- The drop trace of a wrapper has one release for a non-null handle and
none for a null one. -/
theorem drop_trace_length (img : CGImage) :
    (CGImage.drop img).length = if img.ptr = nullPtr then 0 else 1 := by
  by_cases h : img.ptr = nullPtr <;> simp [CGImage.drop, h]

/-- The non-null construction count of a cons. -/
theorem nonnullConstructCount_cons (ev : WrapperEvent)
    (t : List WrapperEvent) :
    nonnullConstructCount (ev :: t) =
      (match ev with
       | WrapperEvent.construct p => if p = nullPtr then 0 else 1
       | WrapperEvent.dropAt _ => 0) + nonnullConstructCount t := by
  cases ev with
  | construct p =>
    by_cases hp : p = nullPtr <;>
      simp [nonnullConstructCount, List.filter_cons, hp, Nat.add_comm]
  | dropAt i => simp [nonnullConstructCount, List.filter_cons]

/-- Removing the wrapper at a live index removes exactly its contribution
to the count of live non-null wrappers. -/
theorem countNonNull_eraseIdx (l : List CGImage) (i : Nat) (img : CGImage)
    (h : l[i]? = some img) :
    countNonNull (l.eraseIdx i) + (CGImage.drop img).length = countNonNull l := by
  induction l generalizing i with
  | nil => simp at h
  | cons a t ih =>
    cases i with
    | zero =>
      simp only [List.getElem?_cons_zero] at h
      injection h with h
      subst h
      by_cases ha : a.ptr = nullPtr <;>
        simp [List.eraseIdx, countNonNull_cons, drop_trace_length, ha] <;>
        omega
    | succ j =>
      simp only [List.getElem?_cons_succ] at h
      have ht := ih j h
      by_cases ha : a.ptr = nullPtr <;>
        simp [List.eraseIdx, countNonNull_cons, ha] <;>
        omega

/-- Running events from any state: the releases issued plus the live
non-null wrappers always account exactly for the non-null constructions,
on top of what the starting state already accounted for. -/
theorem run_from_state_balance (evs : List WrapperEvent) (s : WrapperState) :
    (evs.foldl WrapperState.step s).releases.length +
      countNonNull (evs.foldl WrapperState.step s).live =
    s.releases.length + countNonNull s.live + nonnullConstructCount evs := by
  induction evs generalizing s with
  | nil => simp [nonnullConstructCount]
  | cons ev t ih =>
    rw [List.foldl_cons, ih]
    cases ev with
    | construct p =>
      by_cases hp : p = nullPtr <;>
        simp [WrapperState.step, countNonNull_append, countNonNull_cons,
          countNonNull_nil, nonnullConstructCount_cons, CGImage.from_ptr,
          hp] <;>
        omega
    | dropAt i =>
      cases hg : s.live[i]? with
      | none =>
        simp [WrapperState.step, hg, nonnullConstructCount_cons]
      | some img =>
        have hb := countNonNull_eraseIdx s.live i img hg
        simp only [WrapperState.step, hg, nonnullConstructCount_cons,
          List.length_append]
        omega

/-- C5: over every sequence of constructions and drops of `CGImage`
wrappers, the native release calls balance 1:1 with the wrappers
constructed around a non-null handle: at every point
releases + live-non-null = non-null constructions (so once every wrapper
is dropped, releases = constructions); each drop of a non-null wrapper
issues exactly one release and a drop never issues more than one; a
construction issues no release, and the release of a wrapper is issued
exactly at the step that removes it from the live set (never while it is
still live). -/
theorem release_calls_balance_wrappers (evs : List WrapperEvent)
    (img : CGImage) (s : WrapperState) (i : Nat) (p : Ptr) :
    ((WrapperState.run evs).releases.length +
      countNonNull (WrapperState.run evs).live = nonnullConstructCount evs) ∧
    ((WrapperState.run evs).live = [] →
      (WrapperState.run evs).releases.length = nonnullConstructCount evs) ∧
    (img.ptr ≠ nullPtr →
      CGImage.drop img = [ReleaseCall.cgimage_release img.ptr]) ∧
    (CGImage.drop img).length ≤ 1 ∧
    (s.step (WrapperEvent.construct p)).releases = s.releases ∧
    (∀ im, s.live[i]? = some im →
      (s.step (WrapperEvent.dropAt i)).releases =
        s.releases ++ CGImage.drop im ∧
      (s.step (WrapperEvent.dropAt i)).live = s.live.eraseIdx i) := by
  have hb : (WrapperState.run evs).releases.length +
      countNonNull (WrapperState.run evs).live = nonnullConstructCount evs := by
    have h0 := run_from_state_balance evs initialWrapperState
    simpa [WrapperState.run, initialWrapperState, countNonNull_nil] using h0
  refine ⟨hb, ?_, ?_, ?_, rfl, ?_⟩
  · intro hl
    rw [hl, countNonNull_nil] at hb
    simpa using hb
  · intro hnn
    simp [CGImage.drop, hnn]
  · by_cases hnn : img.ptr = nullPtr <;> simp [CGImage.drop, hnn]
  · intro im him
    simp [WrapperState.step, him]

/-- Witness for C5: a concrete run — construct a wrapper around handle
`1`, construct one around the null handle, then drop both — ends with no
live wrapper and with release count equal to the non-null construction
count; dropping a wrapper around handle `7` issues exactly its one
release. -/
theorem release_calls_balance_wrappers_witness :
    (WrapperState.run [WrapperEvent.construct 1, WrapperEvent.construct 0,
        WrapperEvent.dropAt 0, WrapperEvent.dropAt 0]).releases.length =
      nonnullConstructCount [WrapperEvent.construct 1,
        WrapperEvent.construct 0, WrapperEvent.dropAt 0,
        WrapperEvent.dropAt 0] ∧
    CGImage.drop (CGImage.from_ptr 7) = [ReleaseCall.cgimage_release 7] := by
  have h := release_calls_balance_wrappers
    [WrapperEvent.construct 1, WrapperEvent.construct 0,
      WrapperEvent.dropAt 0, WrapperEvent.dropAt 0]
    (CGImage.from_ptr 7) initialWrapperState 0 1
  exact ⟨h.2.1 (by decide), h.2.2.1 (by decide)⟩

/-- C7: `CGDisplay::display_mode` follows the synchronous out-parameter
query pattern: it returns `Some(DisplayMode)` carrying exactly the five
values the native query wrote into the caller-provided out-parameters iff
the native query returned `true`, and `None` when it returned `false`. -/
theorem display_mode_mirrors_native_query (d : CGDisplay) (ok : Bool)
    (lw lh pw ph : Int) (rr : F64) :
    (ok = true → d.display_mode ok lw lh pw ph rr =
      some ⟨lw, lh, pw, ph, rr⟩) ∧
    (ok = false → d.display_mode ok lw lh pw ph rr = none) ∧
    (∀ m, d.display_mode ok lw lh pw ph rr = some m ↔
      ok = true ∧ m = ⟨lw, lh, pw, ph, rr⟩) := by
  cases ok <;> simp [CGDisplay.display_mode] <;>
    intro m <;> constructor <;> intro h <;> simp [h]

/-- Witness for C7: a concrete successful query (`true`, values
`800 600 1600 1200`, refresh-rate bits `60`) yields exactly those five
values. -/
theorem display_mode_mirrors_native_query_witness :
    CGDisplay.display_mode ⟨1⟩ true 800 600 1600 1200 ⟨60⟩ =
      some ⟨800, 600, 1600, 1200, ⟨60⟩⟩ :=
  (display_mode_mirrors_native_query ⟨1⟩ true 800 600 1600 1200 ⟨60⟩).1 rfl

/-- C8: the Swift-build step of `build.rs` is decided solely by the exit
status channel: it aborts with diagnostics iff the exit status is
unsuccessful, and any stdout/stderr content alongside a given exit status
never changes the outcome (warnings on stderr with a successful status
are informational only). -/
theorem build_outcome_decided_by_exit_status_only (o o2 : ProcOutput) :
    (swift_build_check o = Outcome.ok () ↔ o.success = true) ∧
    ((∃ m, swift_build_check o = Outcome.fatal m) ↔ o.success = false) ∧
    (o.success = o2.success → o.exitCode = o2.exitCode →
      swift_build_check o = swift_build_check o2) := by
  refine ⟨?_, ?_, ?_⟩
  · cases h : o.success <;> simp [swift_build_check, h]
  · cases h : o.success <;> simp [swift_build_check, h]
  · intro hs hc
    cases h : o.success <;>
      simp [swift_build_check, h, ← hs, ← hc]

/-- Witness for C8: a concrete successful build with swift warning text
on stderr produces the same (successful) outcome as the same exit status
with empty stderr. -/
theorem build_outcome_decided_by_exit_status_only_witness :
    swift_build_check ⟨true, some 0, "", "warning: unused variable"⟩ =
      swift_build_check ⟨true, some 0, "", ""⟩ :=
  (build_outcome_decided_by_exit_status_only
    ⟨true, some 0, "", "warning: unused variable"⟩
    ⟨true, some 0, "", ""⟩).2.2 rfl rfl

/-- C10: `CGDisplay::active_displays` returns `Err` when the native list
query reports failure; on success it returns `Ok` with exactly `count`
ids in native order when the count is positive and the buffer is
non-null, and `Ok` with the empty vector when the count is zero or the
buffer is null; the buffer is only dereferenced when non-null with a
positive count, and the native free function is called on every success
path. -/
theorem active_displays_mirrors_native_list (ok : Bool)
    (buf : Option (Nat → Nat)) (f : Nat → Nat) (count : Nat) :
    (ok = false → (active_displays ok buf count).result =
      Except.error (SCError.internal_error "Failed to get active display list")) ∧
    (ok = true → (active_displays ok buf count).freed = true) ∧
    (ok = true → 0 < count →
      (active_displays ok (some f) count).result =
        Except.ok ((List.range count).map f) ∧
      (∀ v, (active_displays ok (some f) count).result = Except.ok v →
        v.length = count)) ∧
    (ok = true → count = 0 →
      (active_displays ok buf count).result = Except.ok []) ∧
    (ok = true →
      (active_displays ok none count).result = Except.ok []) ∧
    ((active_displays ok buf count).derefed = true →
      ok = true ∧ 0 < count ∧ buf.isSome = true) := by
  refine ⟨?_, ?_, ?_, ?_, ?_, ?_⟩
  · intro h
    simp [active_displays, h]
  · intro h
    cases buf <;> by_cases hc : 0 < count <;>
      simp [active_displays, h, hc]
  · intro h hc
    refine ⟨by simp [active_displays, h, hc], ?_⟩
    intro v hv
    simp [active_displays, h, hc] at hv
    simp [← hv]
  · intro h hc
    cases buf <;> simp [active_displays, h, hc]
  · intro h
    simp [active_displays, h]
  · intro h
    cases hk : ok
    · simp [active_displays, hk] at h
    · cases buf with
      | none => simp [active_displays, hk] at h
      | some g =>
        by_cases hc : 0 < count
        · simp [hc]
        · simp [active_displays, hk, hc] at h

/-- Witness for C10: a concrete successful query with 3 ids `10 20 30`
returns exactly those ids in order, and a concrete null buffer with
positive count returns the empty vector. -/
theorem active_displays_mirrors_native_list_witness :
    (active_displays true (some (fun i => 10 * (i + 1))) 3).result =
      Except.ok [10, 20, 30] ∧
    (active_displays true none 5).result = Except.ok [] := by
  have h := active_displays_mirrors_native_list true
    (some (fun i => 10 * (i + 1))) (fun i => 10 * (i + 1)) 3
  have h2 := active_displays_mirrors_native_list true none
    (fun i => 10 * (i + 1)) 5
  refine ⟨?_, h2.2.2.2.2.1 rfl⟩
  have := (h.2.2.1 rfl (by decide)).1
  simpa using this

end SCK
